import Mathlib

/-!
Verification of the PTP (Picture Transfer Protocol) host-side library.

This file is a shallow embedding, in Lean 4, of the parts of the library
relevant to the stated properties: the little-endian byte codec and UTF-16
string codec (`src/data.rs`), the tagged `Data` value family (`src/data.rs`),
the code-space enumerations (`src/command.rs`, `src/response.rs`,
`src/event.rs`, `src/storage.rs`), event parsing (`src/event.rs`), container
header parsing, `ObjectInfo` decoding and the transaction read-phase loop
(`src/lib.rs`).

Modelling conventions:
- A Rust byte stream is a `List Nat` (each element < 256); machine integers
  are `Nat` (unsigned) or `Int` (signed), with explicit `% 2^w` where the
  source relies on wrap-around.
- A Rust `Cursor` reader is a function `Bytes → Except Error (α × Bytes)`
  returning the parsed value and the remaining bytes.  A `byteorder` read
  past the end of a `Cursor` yields `io::ErrorKind::UnexpectedEof`, which the
  library's `From<io::Error> for Error` converts to
  `Error::Malformed("Unexpected end of message")`; the readers below return
  that error directly.
- A Rust `String` is a `List Char` (Rust `char` and Lean `Char` are both
  exactly the Unicode scalar values).  `str::len` (the UTF-8 byte count) and
  `str::encode_utf16` are modelled explicitly.
- Rust enums with `#[repr(u16)]` and derived `FromPrimitive`/`ToPrimitive`
  (`StandardCommandCode`, `StandardEventCode`, ...) are represented by their
  `u16` discriminant together with the explicit list of discriminants that
  the derived `from_u16` accepts; the classified code types
  (`CommandCode`, `EventCode`, `ObjectFormatCode`, ...) are inductives
  mirroring the source, whose `Standard` case carries the discriminant.
-/

namespace Ptp

/-- A byte string: each element is a byte value `< 256`. -/
abbrev Bytes := List Nat

/-- The library error type.  `Response`, `Malformed`, `Usb`, `Io` are the
variants of `Error` in `src/lib.rs`; `BadEventCode` is the variant
constructed by `Event::new` in `src/event.rs`. -/
inductive Error where
  | Response (code : Nat)
  | Malformed (msg : String)
  | Usb
  | Io
  | BadEventCode
  deriving DecidableEq, Repr

/-- `e.isMalformed` holds when `e` is the `Malformed` variant. -/
def Error.isMalformed : Error → Prop
  | .Malformed _ => True
  | _ => False

instance : DecidablePred Error.isMalformed := by
  intro e; cases e <;> simp [Error.isMalformed] <;> infer_instance

/-! ### Byte readers (`PtpRead` in `src/data.rs`)

`byteorder` reads little-endian: the first byte is least significant. -/

/-- `ReadBytesExt::read_u8` on a cursor. -/
def read_ptp_u8 : Bytes → Except Error (Nat × Bytes)
  | [] => .error (.Malformed "Unexpected end of message")
  | b :: r => .ok (b, r)

/-- `read_u16::<LittleEndian>`. -/
def read_ptp_u16 : Bytes → Except Error (Nat × Bytes)
  | b0 :: b1 :: r => .ok (b0 + 256 * b1, r)
  | _ => .error (.Malformed "Unexpected end of message")

/-- `read_u32::<LittleEndian>`. -/
def read_ptp_u32 : Bytes → Except Error (Nat × Bytes)
  | b0 :: b1 :: b2 :: b3 :: r =>
    .ok (b0 + 256 * (b1 + 256 * (b2 + 256 * b3)), r)
  | _ => .error (.Malformed "Unexpected end of message")

/-- `read_u64::<LittleEndian>`. -/
def read_ptp_u64 : Bytes → Except Error (Nat × Bytes)
  | b0 :: b1 :: b2 :: b3 :: b4 :: b5 :: b6 :: b7 :: r =>
    .ok (b0 + 256 * (b1 + 256 * (b2 + 256 * (b3 + 256 *
      (b4 + 256 * (b5 + 256 * (b6 + 256 * b7)))))), r)
  | _ => .error (.Malformed "Unexpected end of message")

/-- Two's-complement value of an 8-bit byte, as `read_i8` yields it. -/
def i8val (n : Nat) : Int := if n < 0x80 then (n : Int) else (n : Int) - 0x100

/-- Two's-complement value of a 16-bit word. -/
def i16val (n : Nat) : Int := if n < 0x8000 then (n : Int) else (n : Int) - 0x10000

/-- Two's-complement value of a 32-bit word. -/
def i32val (n : Nat) : Int :=
  if n < 0x80000000 then (n : Int) else (n : Int) - 0x100000000

/-- Two's-complement value of a 64-bit word. -/
def i64val (n : Nat) : Int :=
  if n < 0x8000000000000000 then (n : Int) else (n : Int) - 0x10000000000000000

/-- `read_i8`. -/
def read_ptp_i8 (b : Bytes) : Except Error (Int × Bytes) :=
  (read_ptp_u8 b).map fun p => (i8val p.1, p.2)

/-- `read_i16::<LittleEndian>`. -/
def read_ptp_i16 (b : Bytes) : Except Error (Int × Bytes) :=
  (read_ptp_u16 b).map fun p => (i16val p.1, p.2)

/-- `read_i32::<LittleEndian>`. -/
def read_ptp_i32 (b : Bytes) : Except Error (Int × Bytes) :=
  (read_ptp_u32 b).map fun p => (i32val p.1, p.2)

/-- `read_i64::<LittleEndian>`. -/
def read_ptp_i64 (b : Bytes) : Except Error (Int × Bytes) :=
  (read_ptp_u64 b).map fun p => (i64val p.1, p.2)

/-- `read_ptp_u128` from `src/data.rs`: it reads a first u64 (bound to the
name `hi` in the source), then a second u64 (bound to `lo`), and returns the
pair `(lo, hi)` — i.e. `(second word, first word)`. -/
def read_ptp_u128 (b : Bytes) : Except Error ((Nat × Nat) × Bytes) :=
  match read_ptp_u64 b with
  | .error e => .error e
  | .ok (hi, r) =>
    match read_ptp_u64 r with
    | .error e => .error e
    | .ok (lo, r2) => .ok ((lo, hi), r2)

/-- `read_ptp_i128` is byte-for-byte the same as `read_ptp_u128`. -/
def read_ptp_i128 (b : Bytes) : Except Error ((Nat × Nat) × Bytes) :=
  read_ptp_u128 b

/-- `read_ptp_vec`'s element loop: read exactly `n` elements, stopping at the
first failing element read (`(0..len).map(|_| func(self)).collect()`). -/
def readN {α : Type} (reader : Bytes → Except Error (α × Bytes)) :
    Nat → Bytes → Except Error (List α × Bytes)
  | 0, b => .ok ([], b)
  | n + 1, b =>
    match reader b with
    | .error e => .error e
    | .ok (x, r) =>
      match readN reader n r with
      | .error e => .error e
      | .ok (xs, r2) => .ok (x :: xs, r2)

/-- `read_ptp_vec`: u32 length prefix, then that many elements. -/
def read_ptp_vec {α : Type} (reader : Bytes → Except Error (α × Bytes))
    (b : Bytes) : Except Error (List α × Bytes) :=
  match read_ptp_u32 b with
  | .error e => .error e
  | .ok (len, r) => readN reader len r

/-! ### UTF-8 / UTF-16 string model -/

/-- `char::len_utf8`: the number of UTF-8 bytes of a scalar value.
`Rust str::len` is the sum of these over the characters. -/
def charUtf8Size (c : Char) : Nat :=
  if c.toNat < 0x80 then 1
  else if c.toNat < 0x800 then 2
  else if c.toNat < 0x10000 then 3
  else 4

/-- `str::len` of a Rust `String`: its UTF-8 byte count. -/
def strUtf8Len (s : List Char) : Nat := (s.map charUtf8Size).sum

/-- `char::encode_utf16`: one code unit below `0x10000`, else a surrogate
pair. -/
def charUtf16 (c : Char) : List Nat :=
  if c.toNat < 0x10000 then [c.toNat]
  else [0xD800 + (c.toNat - 0x10000) / 0x400, 0xDC00 + (c.toNat - 0x10000) % 0x400]

/-- `str::encode_utf16().collect()`. -/
def encodeUtf16 (s : List Char) : List Nat := (s.map charUtf16).flatten

/-- `String::from_utf16`: decode UTF-16 code units, pairing surrogates;
`none` models the `FromUtf16Error` failure on lone surrogates. -/
def decodeUtf16 : List Nat → Option (List Char)
  | [] => some []
  | u :: rest =>
    if u < 0xD800 ∨ 0xE000 ≤ u then
      (decodeUtf16 rest).map (fun s => Char.ofNat u :: s)
    else if u < 0xDC00 then
      match rest with
      | [] => none
      | v :: rest2 =>
        if 0xDC00 ≤ v ∧ v < 0xE000 then
          (decodeUtf16 rest2).map
            (fun s => Char.ofNat (0x10000 + (u - 0xD800) * 0x400 + (v - 0xDC00)) :: s)
        else none
    else none

/-! ### Byte writers (`PtpWrite` in `src/data.rs`) -/

/-- `write_u16::<LittleEndian>`. -/
def write_u16le (n : Nat) : Bytes := [n % 256, n / 256 % 256]

/-- `write_u32::<LittleEndian>`. -/
def write_u32le (n : Nat) : Bytes :=
  [n % 256, n / 256 % 256, n / 256 ^ 2 % 256, n / 256 ^ 3 % 256]

/-- `write_u64::<LittleEndian>`. -/
def write_u64le (n : Nat) : Bytes :=
  [n % 256, n / 256 % 256, n / 256 ^ 2 % 256, n / 256 ^ 3 % 256,
   n / 256 ^ 4 % 256, n / 256 ^ 5 % 256, n / 256 ^ 6 % 256, n / 256 ^ 7 % 256]

/-- Two's-complement byte of an `i8`. -/
def u8ofI (v : Int) : Nat := (v % 0x100).toNat

/-- Two's-complement 16-bit word of an `i16`. -/
def u16ofI (v : Int) : Nat := (v % 0x10000).toNat

/-- Two's-complement 32-bit word of an `i32`. -/
def u32ofI (v : Int) : Nat := (v % 0x100000000).toNat

/-- Two's-complement 64-bit word of an `i64`. -/
def u64ofI (v : Int) : Nat := (v % 0x10000000000000000).toNat

/-- `PtpWrite::write_ptp_str` (`src/data.rs` lines 198-208): collect the
UTF-16 code units, write the single length byte `(utf16.len() as u8) * 2 + 1`
(u8 arithmetic, so wrapping mod 256), and, when the unit list is non-empty,
all units little-endian followed by the two zero bytes of the terminator. -/
def write_ptp_str (s : List Char) : Bytes :=
  ((((encodeUtf16 s).length % 256) * 2 + 1) % 256) ::
    (if (encodeUtf16 s).isEmpty then []
     else ((encodeUtf16 s).map write_u16le).flatten ++ [0, 0])

/-- `PtpRead::read_ptp_str` (`src/data.rs` lines 108-122): read the length
byte `len`; if positive, read `len - 1` UTF-16LE units, then one further u16
(the terminator, discarded), and decode; if zero, the empty string. -/
def read_ptp_str (b : Bytes) : Except Error (List Char × Bytes) :=
  match read_ptp_u8 b with
  | .error e => .error e
  | .ok (len, r) =>
    if len > 0 then
      match readN read_ptp_u16 (len - 1) r with
      | .error e => .error e
      | .ok (data, r2) =>
        match read_ptp_u16 r2 with
        | .error e => .error e
        | .ok (_, r3) =>
          match decodeUtf16 data with
          | some s => .ok (s, r3)
          | none => .error (.Malformed "Invalid UTF16 data")
    else .ok ([], r)

/-! ### The tagged `Data` value (`src/data.rs` lines 213-382)

Unsigned variants carry `Nat`, signed variants carry `Int`, and the 128-bit
variants carry a pair of u64 words exactly as the source's `(u64, u64)`. -/

inductive Data where
  | UNDEF
  | INT8 (v : Int)
  | UINT8 (v : Nat)
  | INT16 (v : Int)
  | UINT16 (v : Nat)
  | INT32 (v : Int)
  | UINT32 (v : Nat)
  | INT64 (v : Int)
  | UINT64 (v : Nat)
  | INT128 (v : Nat × Nat)
  | UINT128 (v : Nat × Nat)
  | AINT8 (v : List Int)
  | AUINT8 (v : List Nat)
  | AINT16 (v : List Int)
  | AUINT16 (v : List Nat)
  | AINT32 (v : List Int)
  | AUINT32 (v : List Nat)
  | AINT64 (v : List Int)
  | AUINT64 (v : List Nat)
  | AINT128 (v : List (Nat × Nat))
  | AUINT128 (v : List (Nat × Nat))
  | STR (v : List Char)
  deriving DecidableEq

/-- `Data::encode` (`src/data.rs` lines 241-352).  `UNDEF` emits no bytes.
The 128-bit branches destructure the stored pair as `(hi, lo)` and write
`lo` (the second component) first, then `hi`.  Array branches write the
element count as a u32 (`val.len() as u32`, hence `% 2^32`) followed by the
elements.  The `STR` branch writes the length byte
`((val.len() as u8) * 2) + 1` where `val.len()` is the UTF-8 **byte** count
of the string, then — when the byte count is positive — the UTF-16 code
units and a two-byte null terminator. -/
def Data.encode : Data → Bytes
  | .UNDEF => []
  | .INT8 v => [u8ofI v]
  | .UINT8 v => [v % 256]
  | .INT16 v => write_u16le (u16ofI v)
  | .UINT16 v => write_u16le v
  | .INT32 v => write_u32le (u32ofI v)
  | .UINT32 v => write_u32le v
  | .INT64 v => write_u64le (u64ofI v)
  | .UINT64 v => write_u64le v
  | .INT128 (hi, lo) => write_u64le lo ++ write_u64le hi
  | .UINT128 (hi, lo) => write_u64le lo ++ write_u64le hi
  | .AINT8 val => write_u32le (val.length % 2 ^ 32) ++ val.map u8ofI
  | .AUINT8 val => write_u32le (val.length % 2 ^ 32) ++ val.map (· % 256)
  | .AINT16 val =>
    write_u32le (val.length % 2 ^ 32) ++ (val.map (fun v => write_u16le (u16ofI v))).flatten
  | .AUINT16 val => write_u32le (val.length % 2 ^ 32) ++ (val.map write_u16le).flatten
  | .AINT32 val =>
    write_u32le (val.length % 2 ^ 32) ++ (val.map (fun v => write_u32le (u32ofI v))).flatten
  | .AUINT32 val => write_u32le (val.length % 2 ^ 32) ++ (val.map write_u32le).flatten
  | .AINT64 val =>
    write_u32le (val.length % 2 ^ 32) ++ (val.map (fun v => write_u64le (u64ofI v))).flatten
  | .AUINT64 val => write_u32le (val.length % 2 ^ 32) ++ (val.map write_u64le).flatten
  | .AINT128 val =>
    write_u32le (val.length % 2 ^ 32) ++
      (val.map (fun p => write_u64le p.2 ++ write_u64le p.1)).flatten
  | .AUINT128 val =>
    write_u32le (val.length % 2 ^ 32) ++
      (val.map (fun p => write_u64le p.2 ++ write_u64le p.1)).flatten
  | .STR val =>
    (((strUtf8Len val % 256) * 2 + 1) % 256) ::
      (if strUtf8Len val > 0 then ((encodeUtf16 val).map write_u16le).flatten ++ [0, 0] else [])

/-- `Data::read_type` (`src/data.rs` lines 354-381): dispatch on the 16-bit
data-type tag; any unrecognized tag yields `UNDEF` without consuming bytes. -/
def Data.read_type (kind : Nat) (b : Bytes) : Except Error (Data × Bytes) :=
  match kind with
  | 0x0001 => (read_ptp_i8 b).map fun p => (.INT8 p.1, p.2)
  | 0x0002 => (read_ptp_u8 b).map fun p => (.UINT8 p.1, p.2)
  | 0x0003 => (read_ptp_i16 b).map fun p => (.INT16 p.1, p.2)
  | 0x0004 => (read_ptp_u16 b).map fun p => (.UINT16 p.1, p.2)
  | 0x0005 => (read_ptp_i32 b).map fun p => (.INT32 p.1, p.2)
  | 0x0006 => (read_ptp_u32 b).map fun p => (.UINT32 p.1, p.2)
  | 0x0007 => (read_ptp_i64 b).map fun p => (.INT64 p.1, p.2)
  | 0x0008 => (read_ptp_u64 b).map fun p => (.UINT64 p.1, p.2)
  | 0x0009 => (read_ptp_i128 b).map fun p => (.INT128 p.1, p.2)
  | 0x000A => (read_ptp_u128 b).map fun p => (.UINT128 p.1, p.2)
  | 0x4001 => (read_ptp_vec read_ptp_i8 b).map fun p => (.AINT8 p.1, p.2)
  | 0x4002 => (read_ptp_vec read_ptp_u8 b).map fun p => (.AUINT8 p.1, p.2)
  | 0x4003 => (read_ptp_vec read_ptp_i16 b).map fun p => (.AINT16 p.1, p.2)
  | 0x4004 => (read_ptp_vec read_ptp_u16 b).map fun p => (.AUINT16 p.1, p.2)
  | 0x4005 => (read_ptp_vec read_ptp_i32 b).map fun p => (.AINT32 p.1, p.2)
  | 0x4006 => (read_ptp_vec read_ptp_u32 b).map fun p => (.AUINT32 p.1, p.2)
  | 0x4007 => (read_ptp_vec read_ptp_i64 b).map fun p => (.AINT64 p.1, p.2)
  | 0x4008 => (read_ptp_vec read_ptp_u64 b).map fun p => (.AUINT64 p.1, p.2)
  | 0x4009 => (read_ptp_vec read_ptp_i128 b).map fun p => (.AINT128 p.1, p.2)
  | 0x400A => (read_ptp_vec read_ptp_u128 b).map fun p => (.AUINT128 p.1, p.2)
  | 0xFFFF => (read_ptp_str b).map fun p => (.STR p.1, p.2)
  | _ => .ok (.UNDEF, b)

/-! ### Code-space enumerations

Each `#[repr(u16)]` standard enum is represented by the explicit list of its
discriminants; the derived `FromPrimitive::from_u16` succeeds exactly on
members of that list and the derived `ToPrimitive::to_u64` returns the
discriminant.  The classified code types mirror the source inductives, the
`Standard` case carrying the discriminant.  `to_u16` is the `num_traits`
default: `to_u64` followed by a checked narrowing to u16. -/

/-- Discriminants of `StandardCommandCode` (`src/command.rs`):
`Undefined = 0x1000` through `InitiateOpenCapture = 0x101C`. -/
def standardCommandCodes : List Nat :=
  [0x1000, 0x1001, 0x1002, 0x1003, 0x1004, 0x1005, 0x1006, 0x1007, 0x1008,
   0x1009, 0x100A, 0x100B, 0x100C, 0x100D, 0x100E, 0x100F, 0x1010, 0x1011,
   0x1012, 0x1013, 0x1014, 0x1015, 0x1016, 0x1017, 0x1018, 0x1019, 0x101A,
   0x101B, 0x101C]

/-- Discriminants of `StandardResponseCode` (`src/response.rs`):
`Undefined = 0x2000` through `SpecificationOfDestinationUnsupported = 0x2020`. -/
def standardResponseCodes : List Nat :=
  [0x2000, 0x2001, 0x2002, 0x2003, 0x2004, 0x2005, 0x2006, 0x2007, 0x2008,
   0x2009, 0x200A, 0x200B, 0x200C, 0x200D, 0x200E, 0x200F, 0x2010, 0x2011,
   0x2012, 0x2013, 0x2014, 0x2015, 0x2016, 0x2017, 0x2018, 0x2019, 0x201A,
   0x201B, 0x201C, 0x201D, 0x201E, 0x201F, 0x2020]

/-- Discriminants of `StandardEventCode` (`src/event.rs`):
`Undefined = 0x4000` through `UnreportedStatus = 0x400C`. -/
def standardEventCodes : List Nat :=
  [0x4000, 0x4001, 0x4002, 0x4003, 0x4004, 0x4005, 0x4006, 0x4007, 0x4008,
   0x4009, 0x400A, 0x400B, 0x400C]

/-- Discriminants of `StandardObjectFormatCode` (`src/storage.rs`):
`UndefinedNonImage = 0x3000` through `Asf = 0x300C`, and
`UndefinedImage = 0x3800` through `Jpx = 0x3810`. -/
def standardObjectFormatCodes : List Nat :=
  [0x3000, 0x3001, 0x3002, 0x3003, 0x3004, 0x3005, 0x3006, 0x3007, 0x3008,
   0x3009, 0x300A, 0x300B, 0x300C,
   0x3800, 0x3801, 0x3802, 0x3803, 0x3804, 0x3805, 0x3806, 0x3807, 0x3808,
   0x3809, 0x380A, 0x380B, 0x380C, 0x380D, 0x380E, 0x380F, 0x3810]

/-- Discriminants of `StandardAssociationCode` (`src/storage.rs`):
`Undefined = 0x0000` through `AncillaryData = 0x0007`. -/
def standardAssociationCodes : List Nat :=
  [0x0000, 0x0001, 0x0002, 0x0003, 0x0004, 0x0005, 0x0006, 0x0007]

/-- Discriminants of `StandardStorageType` (`src/storage.rs`):
`Undefined = 0x0000` through `RemovableRam = 0x0004`. -/
def standardStorageTypes : List Nat := [0x0000, 0x0001, 0x0002, 0x0003, 0x0004]

/-- Discriminants of `StandardFilesystemType` (`src/storage.rs`):
`Undefined = 0x0000` through `DCF = 0x0003`. -/
def standardFilesystemTypes : List Nat := [0x0000, 0x0001, 0x0002, 0x0003]

/-- Discriminants of `StandardAccessType` (`src/storage.rs`):
`ReadWrite = 0x0000` through `ReadOnly = 0x0002`. -/
def standardAccessTypes : List Nat := [0x0000, 0x0001, 0x0002]

/-- The most-significant-nibble computation `(n & MSN_MASK) >> 12` with
`MSN_MASK = 0b1111_0000_0000_0000`, as in `src/event.rs` / `src/storage.rs`. -/
def msn (n : Nat) : Nat := (n &&& 0xF000) >>> 12

/-- The bit-15 test `(n >> 15) & 1 == 1` of `src/storage.rs`. -/
def bit15 (n : Nat) : Bool := (n >>> 15) &&& 1 == 1

/-- `CommandCode` (`src/command.rs`): `Standard | Other`. -/
inductive CommandCode where
  | Standard (n : Nat)
  | Other (n : Nat)
  deriving DecidableEq

/-- `CommandCode::from_u64`: truncate to u16, then `Standard` for a
recognized discriminant and `Other` for everything else (never `None`). -/
def CommandCode.from_u64 (n : Nat) : Option CommandCode :=
  let n := n % 2 ^ 16
  if n ∈ standardCommandCodes then some (.Standard n) else some (.Other n)

/-- `from_u16` is the `num_traits` default in terms of `from_u64`. -/
def CommandCode.from_u16 (n : Nat) : Option CommandCode := CommandCode.from_u64 n

/-- `CommandCode::to_u64`: the discriminant in the `Standard` case, the
carried wire value in the `Other` case. -/
def CommandCode.to_u64 : CommandCode → Option Nat
  | .Standard n => some n
  | .Other n => some n

/-- `to_u16` default: `to_u64` then checked narrowing. -/
def CommandCode.to_u16 (c : CommandCode) : Option Nat :=
  c.to_u64.bind fun v => if v < 2 ^ 16 then some v else none

/-- `ResponseCode` (`src/response.rs`): `Standard | Other`. -/
inductive ResponseCode where
  | Standard (n : Nat)
  | Other (n : Nat)
  deriving DecidableEq

/-- `ResponseCode::from_u64`: like `CommandCode::from_u64`. -/
def ResponseCode.from_u64 (n : Nat) : Option ResponseCode :=
  let n := n % 2 ^ 16
  if n ∈ standardResponseCodes then some (.Standard n) else some (.Other n)

/-- `from_u16` default. -/
def ResponseCode.from_u16 (n : Nat) : Option ResponseCode := ResponseCode.from_u64 n

/-- `ResponseCode` has no source `to_u64`, but the standard discriminant
recovery is the same shape; kept for the round-trip statement. -/
def ResponseCode.to_u64 : ResponseCode → Option Nat
  | .Standard n => some n
  | .Other n => some n

/-- `to_u16` default. -/
def ResponseCode.to_u16 (c : ResponseCode) : Option Nat :=
  c.to_u64.bind fun v => if v < 2 ^ 16 then some v else none

/-- `EventCode` (`src/event.rs`): `Standard | Vendor | Reserved`. -/
inductive EventCode where
  | Standard (n : Nat)
  | Vendor (n : Nat)
  | Reserved (n : Nat)
  deriving DecidableEq

/-- `EventCode::from_u64` (`src/event.rs` lines 24-46): truncate to u16;
standard discriminants map to `Standard`; otherwise most-significant nibble
`0b1100` maps to `Vendor`, `0b0100` to `Reserved`, anything else to `None`. -/
def EventCode.from_u64 (n : Nat) : Option EventCode :=
  let n := n % 2 ^ 16
  if n ∈ standardEventCodes then some (.Standard n)
  else if msn n = 0b1100 then some (.Vendor n)
  else if msn n = 0b0100 then some (.Reserved n)
  else none

/-- `from_u16` default. -/
def EventCode.from_u16 (n : Nat) : Option EventCode := EventCode.from_u64 n

/-- `EventCode::to_u64` (`src/event.rs` lines 54-59). -/
def EventCode.to_u64 : EventCode → Option Nat
  | .Standard n => some n
  | .Vendor n => some n
  | .Reserved n => some n

/-- `to_u16` default. -/
def EventCode.to_u16 (c : EventCode) : Option Nat :=
  c.to_u64.bind fun v => if v < 2 ^ 16 then some v else none

/-- `ObjectFormatCode` (`src/storage.rs`):
`Standard | Reserved | Vendor | ImageOnly`. -/
inductive ObjectFormatCode where
  | Standard (n : Nat)
  | Reserved (n : Nat)
  | Vendor (n : Nat)
  | ImageOnly
  deriving DecidableEq

/-- `ObjectFormatCode::from_u64` (`src/storage.rs` lines 129-155): truncate
to u16; standard discriminants map to `Standard`; `0xFFFF` to `ImageOnly`;
otherwise most-significant nibble `0b1011` maps to `Vendor`, `0b0011` to
`Reserved`, anything else to `None`. -/
def ObjectFormatCode.from_u64 (n : Nat) : Option ObjectFormatCode :=
  let n := n % 2 ^ 16
  if n ∈ standardObjectFormatCodes then some (.Standard n)
  else if n = 0xFFFF then some .ImageOnly
  else if msn n = 0b1011 then some (.Vendor n)
  else if msn n = 0b0011 then some (.Reserved n)
  else none

/-- `from_u16` default. -/
def ObjectFormatCode.from_u16 (n : Nat) : Option ObjectFormatCode :=
  ObjectFormatCode.from_u64 n

/-- `ObjectFormatCode::to_u64` (`src/storage.rs` lines 163-169).  Note the
source returns `Some(0xFFFFFFFF)` — a 32-bit value — for `ImageOnly`. -/
def ObjectFormatCode.to_u64 : ObjectFormatCode → Option Nat
  | .Standard n => some n
  | .Reserved n => some n
  | .Vendor n => some n
  | .ImageOnly => some 0xFFFFFFFF

/-- `to_u16` default: `to_u64` then checked narrowing to u16. -/
def ObjectFormatCode.to_u16 (c : ObjectFormatCode) : Option Nat :=
  c.to_u64.bind fun v => if v < 2 ^ 16 then some v else none

/-- `AssociationCode` (`src/storage.rs`): `Standard | Reserved | Vendor`. -/
inductive AssociationCode where
  | Standard (n : Nat)
  | Reserved (n : Nat)
  | Vendor (n : Nat)
  deriving DecidableEq

/-- `AssociationCode::from_u64` (`src/storage.rs` lines 197-213): truncate
to u16; standard discriminants map to `Standard`; otherwise bit 15 set maps
to `Vendor` and everything else to `Reserved` (never `None`). -/
def AssociationCode.from_u64 (n : Nat) : Option AssociationCode :=
  let n := n % 2 ^ 16
  if n ∈ standardAssociationCodes then some (.Standard n)
  else if bit15 n then some (.Vendor n)
  else some (.Reserved n)

/-- `from_u16` default. -/
def AssociationCode.from_u16 (n : Nat) : Option AssociationCode :=
  AssociationCode.from_u64 n

/-- `AssociationCode::to_u64`. -/
def AssociationCode.to_u64 : AssociationCode → Option Nat
  | .Standard n => some n
  | .Reserved n => some n
  | .Vendor n => some n

/-- `to_u16` default. -/
def AssociationCode.to_u16 (c : AssociationCode) : Option Nat :=
  c.to_u64.bind fun v => if v < 2 ^ 16 then some v else none

/-- `StorageType` (`src/storage.rs`): `Standard | Reserved` — there is no
`Vendor` case. -/
inductive StorageType where
  | Standard (n : Nat)
  | Reserved (n : Nat)
  deriving DecidableEq

/-- `StorageType::from_u64` (`src/storage.rs` lines 343-351): standard
discriminants map to `Standard`, everything else to `Reserved`. -/
def StorageType.from_u64 (n : Nat) : Option StorageType :=
  let n := n % 2 ^ 16
  if n ∈ standardStorageTypes then some (.Standard n) else some (.Reserved n)

/-- `from_u16` default. -/
def StorageType.from_u16 (n : Nat) : Option StorageType := StorageType.from_u64 n

/-- `StorageType::to_u64`. -/
def StorageType.to_u64 : StorageType → Option Nat
  | .Standard n => some n
  | .Reserved n => some n

/-- `to_u16` default. -/
def StorageType.to_u16 (c : StorageType) : Option Nat :=
  c.to_u64.bind fun v => if v < 2 ^ 16 then some v else none

/-- `FilesystemType` (`src/storage.rs`): `Standard | Reserved | Vendor`. -/
inductive FilesystemType where
  | Standard (n : Nat)
  | Reserved (n : Nat)
  | Vendor (n : Nat)
  deriving DecidableEq

/-- `FilesystemType::from_u64` (`src/storage.rs` lines 295-307): standard
discriminants map to `Standard`; otherwise bit 15 set maps to `Vendor` and
everything else to `Reserved`. -/
def FilesystemType.from_u64 (n : Nat) : Option FilesystemType :=
  let n := n % 2 ^ 16
  if n ∈ standardFilesystemTypes then some (.Standard n)
  else if bit15 n then some (.Vendor n)
  else some (.Reserved n)

/-- `from_u16` default. -/
def FilesystemType.from_u16 (n : Nat) : Option FilesystemType :=
  FilesystemType.from_u64 n

/-- `FilesystemType::to_u64`. -/
def FilesystemType.to_u64 : FilesystemType → Option Nat
  | .Standard n => some n
  | .Reserved n => some n
  | .Vendor n => some n

/-- `to_u16` default. -/
def FilesystemType.to_u16 (c : FilesystemType) : Option Nat :=
  c.to_u64.bind fun v => if v < 2 ^ 16 then some v else none

/-- `AccessType` (`src/storage.rs`): `Standard | Reserved` — there is no
`Vendor` case. -/
inductive AccessType where
  | Standard (n : Nat)
  | Reserved (n : Nat)
  deriving DecidableEq

/-- `AccessType::from_u64` (`src/storage.rs` lines 250-258): standard
discriminants map to `Standard`, everything else to `Reserved`. -/
def AccessType.from_u64 (n : Nat) : Option AccessType :=
  let n := n % 2 ^ 16
  if n ∈ standardAccessTypes then some (.Standard n) else some (.Reserved n)

/-- `from_u16` default. -/
def AccessType.from_u16 (n : Nat) : Option AccessType := AccessType.from_u64 n

/-- `AccessType::to_u64`. -/
def AccessType.to_u64 : AccessType → Option Nat
  | .Standard n => some n
  | .Reserved n => some n

/-- `to_u16` default. -/
def AccessType.to_u16 (c : AccessType) : Option Nat :=
  c.to_u64.bind fun v => if v < 2 ^ 16 then some v else none

/-! ### Event parsing (`src/event.rs` lines 103-126) -/

/-- An asynchronous PTP event: classified code and u32 parameters. -/
structure Event where
  code : EventCode
  params : List Nat
  deriving DecidableEq

/-- `u32::from_be_bytes` on a 4-byte group: the first byte is most
significant. -/
def beU32 : Bytes → Nat
  | [a, b, c, d] => ((a * 256 + b) * 256 + c) * 256 + d
  | _ => 0

/-- `slice::chunks_exact(4)`: the consecutive complete 4-byte groups; up to
3 trailing bytes are dropped. -/
def chunksExact4 : Bytes → List Bytes
  | a :: b :: c :: d :: rest => [a, b, c, d] :: chunksExact4 rest
  | _ => []

/-- `Event::new` (`src/event.rs` lines 111-125): classify the code through
`EventCode::from_u16` (failure is `Error::BadEventCode`), and map each exact
4-byte chunk of the payload through `u32::from_be_bytes`. -/
def Event.new (code : Nat) (params : Bytes) : Except Error Event :=
  match EventCode.from_u16 code with
  | none => .error .BadEventCode
  | some c => .ok ⟨c, (chunksExact4 params).map beU32⟩

/-! ### Container framing (`src/lib.rs` lines 20-27, 781-819) -/

/-- `PtpContainerType`: the four container kinds with discriminants 1-4. -/
inductive PtpContainerType where
  | Command
  | Data
  | Response
  | Event
  deriving DecidableEq

/-- Derived `PtpContainerType::from_u16`: 1=Command, 2=Data, 3=Response,
4=Event, anything else `None`. -/
def PtpContainerType.from_u16 : Nat → Option PtpContainerType
  | 1 => some .Command
  | 2 => some .Data
  | 3 => some .Response
  | 4 => some .Event
  | _ => none

/-- `PtpContainerInfo`: parsed 12-byte container header. -/
structure PtpContainerInfo where
  payload_len : Nat
  kind : PtpContainerType
  code : Nat
  tid : Nat
  deriving DecidableEq

/-- `PTP_CONTAINER_INFO_SIZE`. -/
def PTP_CONTAINER_INFO_SIZE : Nat := 12

/-- `PtpContainerInfo::parse` (`src/lib.rs` lines 799-813): read the u32
length, the u16 kind (failing with `Malformed` on an unknown kind), the u16
code and the u32 transaction id.  The payload length is computed as
`len as usize - PTP_CONTAINER_INFO_SIZE` with **no check that `len ≥ 12`**;
usize subtraction wraps modulo `2^64` in release builds (and panics in debug
builds), which the embedding renders as `(len + 2^64 - 12) % 2^64`. -/
def PtpContainerInfo.parse (b : Bytes) : Except Error PtpContainerInfo :=
  match read_ptp_u32 b with
  | .error e => .error e
  | .ok (len, r) =>
    match read_ptp_u16 r with
    | .error e => .error e
    | .ok (kind_u16, r2) =>
      match PtpContainerType.from_u16 kind_u16 with
      | none => .error (.Malformed ("Invalid message type " ++ toString kind_u16 ++ "."))
      | some kind =>
        match read_ptp_u16 r2 with
        | .error e => .error e
        | .ok (code, r3) =>
          match read_ptp_u32 r3 with
          | .error e => .error e
          | .ok (tid, _) =>
            .ok { payload_len := (len + 2 ^ 64 - PTP_CONTAINER_INFO_SIZE) % 2 ^ 64,
                  kind := kind, code := code, tid := tid }

/-! ### `ObjectInfo` decoding (`src/lib.rs` lines 637-687) -/

/-- `PtpObjectInfo`: the 19 wire-order fields.  `ObjectFormat` and
`AssociationType` are plain u16 fields. -/
structure PtpObjectInfo where
  StorageID : Nat
  ObjectFormat : Nat
  ProtectionStatus : Nat
  ObjectCompressedSize : Nat
  ThumbFormat : Nat
  ThumbCompressedSize : Nat
  ThumbPixWidth : Nat
  ThumbPixHeight : Nat
  ImagePixWidth : Nat
  ImagePixHeight : Nat
  ImageBitDepth : Nat
  ParentObject : Nat
  AssociationType : Nat
  AssociationDesc : Nat
  SequenceNumber : Nat
  Filename : List Char
  CaptureDate : List Char
  ModificationDate : List Char
  Keywords : List Char
  deriving DecidableEq

/-- `PtpObjectInfo::decode` (`src/lib.rs` lines 662-686): plain sequential
reads in wire order; `ObjectFormat` and `AssociationType` are read with
`read_ptp_u16` and stored raw — no code classification is performed. -/
def PtpObjectInfo.decode (buf : Bytes) : Except Error PtpObjectInfo :=
  (read_ptp_u32 buf).bind fun (storageID, r0) =>
  (read_ptp_u16 r0).bind fun (objectFormat, r1) =>
  (read_ptp_u16 r1).bind fun (protectionStatus, r2) =>
  (read_ptp_u32 r2).bind fun (objectCompressedSize, r3) =>
  (read_ptp_u16 r3).bind fun (thumbFormat, r4) =>
  (read_ptp_u32 r4).bind fun (thumbCompressedSize, r5) =>
  (read_ptp_u32 r5).bind fun (thumbPixWidth, r6) =>
  (read_ptp_u32 r6).bind fun (thumbPixHeight, r7) =>
  (read_ptp_u32 r7).bind fun (imagePixWidth, r8) =>
  (read_ptp_u32 r8).bind fun (imagePixHeight, r9) =>
  (read_ptp_u32 r9).bind fun (imageBitDepth, r10) =>
  (read_ptp_u32 r10).bind fun (parentObject, r11) =>
  (read_ptp_u16 r11).bind fun (associationType, r12) =>
  (read_ptp_u32 r12).bind fun (associationDesc, r13) =>
  (read_ptp_u32 r13).bind fun (sequenceNumber, r14) =>
  (read_ptp_str r14).bind fun (filename, r15) =>
  (read_ptp_str r15).bind fun (captureDate, r16) =>
  (read_ptp_str r16).bind fun (modificationDate, r17) =>
  (read_ptp_str r17).bind fun (keywords, _) =>
  .ok { StorageID := storageID, ObjectFormat := objectFormat,
        ProtectionStatus := protectionStatus,
        ObjectCompressedSize := objectCompressedSize,
        ThumbFormat := thumbFormat, ThumbCompressedSize := thumbCompressedSize,
        ThumbPixWidth := thumbPixWidth, ThumbPixHeight := thumbPixHeight,
        ImagePixWidth := imagePixWidth, ImagePixHeight := imagePixHeight,
        ImageBitDepth := imageBitDepth, ParentObject := parentObject,
        AssociationType := associationType, AssociationDesc := associationDesc,
        SequenceNumber := sequenceNumber, Filename := filename,
        CaptureDate := captureDate, ModificationDate := modificationDate,
        Keywords := keywords }

/-! ### The transaction read-phase loop (`src/lib.rs` lines 876-931)

`command()` writes the command (and optional data-out) phase, then loops
reading containers until a `Response` container appears.  The embedding
models the loop over the sequence of containers delivered on the bulk-in
endpoint, each already parsed to its header and payload. -/

/-- A received container: parsed header fields plus payload bytes. -/
structure RxContainer where
  kind : PtpContainerType
  code : Nat
  tid : Nat
  payload : Bytes
  deriving DecidableEq

/-- The read-phase loop of `PtpCamera::command` (`src/lib.rs` lines
909-930).  `acc` is the `data_phase_payload` accumulator (initially empty).
For each container: a foreign transaction id fails with
`Malformed("mismatched txnid {}, expecting {}")`; a `Data` container
replaces the accumulator with its payload; a `Response` container either
fails with `Response(code)` when the code is not `StandardResponseCode::Ok`
(`0x2001`) or returns the accumulator; any other kind is ignored.  `none`
models the loop still blocked on the next bulk-in transfer. -/
def commandReadLoop (tid : Nat) (acc : Bytes) :
    List RxContainer → Option (Except Error Bytes)
  | [] => none
  | c :: rest =>
    if c.tid ≠ tid then
      some (.error (.Malformed
        ("mismatched txnid " ++ toString c.tid ++ ", expecting " ++ toString tid)))
    else
      match c.kind with
      | .Data => commandReadLoop tid c.payload rest
      | .Response =>
        if c.code ≠ 0x2001 then some (.error (.Response c.code))
        else some (.ok acc)
      | _ => commandReadLoop tid acc rest

/-! ## Theorems -/

/-- C1: the claim states that every code type round-trips
`to_u16 (from_u16 n) = n` for every accepted `n`, and in particular that the
sentinel `0xFFFF`, accepted as `ObjectFormatCode::ImageOnly`, converts back
to `0xFFFF`.  The code violates this at the sentinel:
`ObjectFormatCode::to_u64` returns `Some(0xFFFFFFFF)` for `ImageOnly`, so
the u16 narrowing fails and `to_u16` yields `None` instead of `0xFFFF`. -/
theorem objectFormatCode_imageOnly_breaks_roundtrip :
    ObjectFormatCode.from_u16 0xFFFF = some .ImageOnly ∧
    ObjectFormatCode.to_u64 .ImageOnly = some 0xFFFFFFFF ∧
    ObjectFormatCode.to_u16 .ImageOnly = none := by
  refine ⟨?_, rfl, rfl⟩
  decide

/-- C2: the claim states `decode (encode s) = s` for strings of at most 254
UTF-16 units, that the empty string encodes as the single byte `0x00`, and
that `"ABC"` encodes to the 9 bytes `07 41 00 42 00 43 00 00 00` and
round-trips.  The code produces exactly those 9 bytes for `"ABC"`, but the
encoder's length byte `2·units + 1` disagrees with the decoder's convention
(`n - 1` units plus a terminator), so decoding the encoder's own output
fails with `Malformed` — and the empty string encodes as `0x01`, not
`0x00`. -/
theorem string_codec_roundtrip_fails :
    write_ptp_str ['A', 'B', 'C'] =
      [0x07, 0x41, 0x00, 0x42, 0x00, 0x43, 0x00, 0x00, 0x00] ∧
    read_ptp_str (write_ptp_str ['A', 'B', 'C']) =
      .error (.Malformed "Unexpected end of message") ∧
    write_ptp_str [] = [0x01] ∧
    read_ptp_str (write_ptp_str []) =
      .error (.Malformed "Unexpected end of message") := by
  refine ⟨rfl, rfl, rfl, rfl⟩

/-- C3: the claim states `read_type (tag v) (encode v)` reproduces every
`Data` value `v ≠ UNDEF`.  It fails on the `STR` variant: `Data::encode`
writes the same malformed length byte as `write_ptp_str`, so reading back
the encoding of `STR "A"` (tag `0xFFFF`) fails with `Malformed` instead of
reproducing the value. -/
theorem data_str_roundtrip_fails :
    Data.encode (.STR ['A']) = [0x03, 0x41, 0x00, 0x00, 0x00] ∧
    Data.read_type 0xFFFF (Data.encode (.STR ['A'])) =
      .error (.Malformed "Unexpected end of message") := by
  refine ⟨rfl, rfl⟩

/-- C4: the claim states container parsing fails with `Malformed` when the
u32 length field is less than 12.  `PtpContainerInfo::parse` performs no
such check: on a header with length 11 it succeeds, computing
`payload_len = 11 - 12` with wrapping usize arithmetic (`2^64 - 1`; in a
debug build the subtraction panics instead). -/
theorem parse_accepts_length_below_12 :
    PtpContainerInfo.parse [0x0B, 0, 0, 0, 1, 0, 0x01, 0x10, 0, 0, 0, 0] =
      .ok { payload_len := 2 ^ 64 - 1, kind := .Command, code := 0x1001, tid := 0 } := by
  rfl

/-- C5 counterexample: the claim states vendor classification uses the
most-significant nibble `0xC` for object-format codes and bit 15 for
storage-type and access-type codes.  At concrete non-standard inputs the
code disagrees: `0xC001` is rejected by `ObjectFormatCode::from_u16` (its
vendor nibble is `0xB`, not `0xC`) while `0xB001` is accepted as `Vendor`;
`StorageType` and `AccessType` classify bit-15 values as `Reserved`, having
no `Vendor` case; `CommandCode` maps `0xC001` to `Other`, not `Vendor`. -/
theorem vendor_nibble_counterexample :
    ObjectFormatCode.from_u16 0xC001 = none ∧
    ObjectFormatCode.from_u16 0xB001 = some (.Vendor 0xB001) ∧
    StorageType.from_u16 0x8001 = some (.Reserved 0x8001) ∧
    AccessType.from_u16 0x8000 = some (.Reserved 0x8000) ∧
    CommandCode.from_u16 0xC001 = some (.Other 0xC001) := by
  refine ⟨by decide, by decide, by decide, by decide, by decide⟩

/-- C5 (amended): for every u16 `n` that is not a standard constant of the
respective code space, the code classifies `n` as `Vendor` exactly when the
most-significant nibble is `0xC` for event codes; exactly when the nibble is
`0xB` for object-format codes (the sentinel `0xFFFF` aside); and exactly
when bit 15 is set for association and filesystem-type codes.  Command,
response, storage-type and access-type codes are never classified `Vendor`:
non-standard commands and responses become `Other n`, non-standard storage
and access types become `Reserved n`. -/
theorem vendor_classification (n : Nat) (hn : n < 2 ^ 16) :
    (n ∉ standardEventCodes →
      (EventCode.from_u16 n = some (.Vendor n) ↔ msn n = 0xC)) ∧
    (n ∉ standardObjectFormatCodes → n ≠ 0xFFFF →
      (ObjectFormatCode.from_u16 n = some (.Vendor n) ↔ msn n = 0xB)) ∧
    (n ∉ standardAssociationCodes →
      (AssociationCode.from_u16 n = some (.Vendor n) ↔ bit15 n = true)) ∧
    (n ∉ standardFilesystemTypes →
      (FilesystemType.from_u16 n = some (.Vendor n) ↔ bit15 n = true)) ∧
    (n ∉ standardStorageTypes → StorageType.from_u16 n = some (.Reserved n)) ∧
    (n ∉ standardAccessTypes → AccessType.from_u16 n = some (.Reserved n)) ∧
    (n ∉ standardCommandCodes → CommandCode.from_u16 n = some (.Other n)) ∧
    (n ∉ standardResponseCodes → ResponseCode.from_u16 n = some (.Other n)) := by
  have hmod : n % 2 ^ 16 = n := Nat.mod_eq_of_lt hn
  refine ⟨?_, ?_, ?_, ?_, ?_, ?_, ?_, ?_⟩
  · intro hstd
    rw [EventCode.from_u16, EventCode.from_u64]
    simp only [hmod, if_neg hstd]
    by_cases hv : msn n = 0xC
    · simp [hv]
    · simp only [if_neg hv]
      by_cases hr : msn n = 0x4 <;> simp [hr, hv]
  · intro hstd hffff
    rw [ObjectFormatCode.from_u16, ObjectFormatCode.from_u64]
    simp only [hmod, if_neg hstd, if_neg hffff]
    by_cases hv : msn n = 0xB
    · simp [hv]
    · simp only [if_neg hv]
      by_cases hr : msn n = 0x3 <;> simp [hr, hv]
  · intro hstd
    rw [AssociationCode.from_u16, AssociationCode.from_u64]
    simp only [hmod, if_neg hstd]
    by_cases hv : bit15 n = true <;> simp [hv]
  · intro hstd
    rw [FilesystemType.from_u16, FilesystemType.from_u64]
    simp only [hmod, if_neg hstd]
    by_cases hv : bit15 n = true <;> simp [hv]
  · intro hstd
    rw [StorageType.from_u16, StorageType.from_u64]
    simp only [hmod, if_neg hstd]
  · intro hstd
    rw [AccessType.from_u16, AccessType.from_u64]
    simp only [hmod, if_neg hstd]
  · intro hstd
    rw [CommandCode.from_u16, CommandCode.from_u64]
    simp only [hmod, if_neg hstd]
  · intro hstd
    rw [ResponseCode.from_u16, ResponseCode.from_u64]
    simp only [hmod, if_neg hstd]

/-- Witness for `vendor_classification` at the concrete non-standard value
`0xC123` (most-significant nibble `0xC`, bit 15 set). -/
theorem vendor_classification_witness :
    ((EventCode.from_u16 0xC123 = some (.Vendor 0xC123) ↔ msn 0xC123 = 0xC) ∧
     (ObjectFormatCode.from_u16 0xC123 = some (.Vendor 0xC123) ↔ msn 0xC123 = 0xB) ∧
     (AssociationCode.from_u16 0xC123 = some (.Vendor 0xC123) ↔ bit15 0xC123 = true) ∧
     (FilesystemType.from_u16 0xC123 = some (.Vendor 0xC123) ↔ bit15 0xC123 = true) ∧
     StorageType.from_u16 0xC123 = some (.Reserved 0xC123) ∧
     AccessType.from_u16 0xC123 = some (.Reserved 0xC123) ∧
     CommandCode.from_u16 0xC123 = some (.Other 0xC123) ∧
     ResponseCode.from_u16 0xC123 = some (.Other 0xC123)) := by
  have h := vendor_classification 0xC123 (by decide)
  exact ⟨h.1 (by decide), h.2.1 (by decide) (by decide), h.2.2.1 (by decide),
         h.2.2.2.1 (by decide), h.2.2.2.2.1 (by decide), h.2.2.2.2.2.1 (by decide),
         h.2.2.2.2.2.2.1 (by decide), h.2.2.2.2.2.2.2 (by decide)⟩

/-- C6: whenever the read phase of `command()` receives a container whose
transaction id differs from the request's, it fails immediately with
`Malformed("mismatched txnid {}, expecting {}")`, whatever the container's
kind, code or payload and whatever was already accumulated. -/
theorem command_mismatched_txnid (tid : Nat) (acc : Bytes) (c : RxContainer)
    (rest : List RxContainer) (h : c.tid ≠ tid) :
    commandReadLoop tid acc (c :: rest) =
      some (.error (.Malformed
        ("mismatched txnid " ++ toString c.tid ++ ", expecting " ++ toString tid))) := by
  rw [commandReadLoop]
  simp [h]

/-- Witness for `command_mismatched_txnid`: the spec's scenario — a command
issued with tid 5 answered by a `Response` container with tid 6. -/
theorem command_mismatched_txnid_witness :
    commandReadLoop 5 []
        [{ kind := .Response, code := 0x2001, tid := 6, payload := [] }] =
      some (.error (.Malformed "mismatched txnid 6, expecting 5")) := by
  have h := command_mismatched_txnid 5 []
    { kind := .Response, code := 0x2001, tid := 6, payload := [] } [] (by decide)
  exact h.trans (by rfl)

/-- Helper: `getLast?` of a cons cell, with the head as the fallback. -/
theorem getLast?_cons_getD {α : Type} (a : α) (l : List α) :
    (a :: l).getLast? = some (l.getLast?.getD a) := by
  induction l generalizing a with
  | nil => rfl
  | cons b t ih => rw [List.getLast?_cons_cons, ih b]; rfl

/-- Helper: one step of the data-in accumulator.  Prepending a non-`Response`
container to the remaining prefix updates the "payload of the most recent
`Data` container, defaulting to `acc`" exactly as the loop updates its
accumulator. -/
theorem lastData_cons (x : RxContainer) (pre : List RxContainer) (acc : Bytes) :
    (((x :: pre).filter fun y => y.kind == PtpContainerType.Data).getLast?.map
        (fun d => d.payload)).getD acc =
      ((pre.filter fun y => y.kind == PtpContainerType.Data).getLast?.map
        (fun d => d.payload)).getD
        (if x.kind == PtpContainerType.Data then x.payload else acc) := by
  by_cases hx : x.kind == PtpContainerType.Data
  · rw [List.filter_cons, if_pos hx, getLast?_cons_getD, if_pos hx]
    cases h : (pre.filter fun y => y.kind == PtpContainerType.Data).getLast? with
    | none => simp [h]
    | some d => simp [h]
  · rw [List.filter_cons, if_neg hx, if_neg hx]

/-- C7: when the read phase, begun with accumulator `acc`, sees a stream
consisting of non-`Response` containers of the right transaction id followed
by a `Response` container of the right transaction id, then: a response code
other than the standard `Ok` (`0x2001`) fails with `Response(code)`, and the
`Ok` code returns the payload of the most recently received `Data`
container, or the initial accumulator (the empty vector in `command()`) if
no `Data` container arrived. -/
theorem command_response_phase (tid : Nat) (acc : Bytes) (pre : List RxContainer)
    (c : RxContainer) (rest : List RxContainer)
    (hpre : ∀ x ∈ pre, x.tid = tid ∧ x.kind ≠ PtpContainerType.Response)
    (htid : c.tid = tid) (hkind : c.kind = PtpContainerType.Response) :
    commandReadLoop tid acc (pre ++ c :: rest) =
      some (if c.code = 0x2001 then
              .ok (((pre.filter fun y => y.kind == PtpContainerType.Data).getLast?.map
                      (fun d => d.payload)).getD acc)
            else .error (.Response c.code)) := by
  induction pre generalizing acc with
  | nil =>
    rw [List.nil_append, commandReadLoop]
    simp only [htid, hkind, ne_eq, not_true_eq_false, if_false, ite_not]
    by_cases hc : c.code = 0x2001 <;> simp [hc]
  | cons x pre ih =>
    have hx := hpre x (List.mem_cons_self x pre)
    have hpre' : ∀ y ∈ pre, y.tid = tid ∧ y.kind ≠ PtpContainerType.Response :=
      fun y hy => hpre y (List.mem_cons_of_mem x hy)
    rw [List.cons_append, commandReadLoop]
    simp only [hx.1, ne_eq, not_true_eq_false, if_false]
    rw [lastData_cons]
    cases hk : x.kind with
    | Response => exact absurd hk hx.2
    | Data => simpa [hk] using ih x.payload hpre'
    | Command => simpa [hk] using ih acc hpre'
    | Event => simpa [hk] using ih acc hpre'

/-- Witness for `command_response_phase`: tid 1, a `Data` container carrying
`[9, 9]` followed by an `Ok` response returns `[9, 9]`. -/
theorem command_response_phase_witness :
    commandReadLoop 1 []
        [{ kind := .Data, code := 0x1001, tid := 1, payload := [9, 9] },
         { kind := .Response, code := 0x2001, tid := 1, payload := [] }] =
      some (.ok [9, 9]) := by
  have h := command_response_phase 1 []
    [{ kind := .Data, code := 0x1001, tid := 1, payload := [9, 9] }]
    { kind := .Response, code := 0x2001, tid := 1, payload := [] } []
    (by intro x hx; simp at hx; subst hx; exact ⟨rfl, by decide⟩) rfl rfl
  exact h.trans (by rfl)

/-- Helper: composing two readers that can only fail with `Malformed` can
only fail with `Malformed`. -/
theorem bind_errors_malformed {α β : Type} {x : Except Error α}
    {f : α → Except Error β}
    (hx : ∀ e, x = .error e → e.isMalformed)
    (hf : ∀ a e, f a = .error e → e.isMalformed) :
    ∀ e, x.bind f = .error e → e.isMalformed := by
  intro e h
  cases hx' : x with
  | error e2 =>
    rw [hx'] at h
    have h' : (Except.error e2 : Except Error β) = .error e := h
    injection h' with h2
    exact h2 ▸ hx e2 hx'
  | ok a =>
    rw [hx'] at h
    exact hf a e h

/-- Helper: `read_ptp_u8` fails only with `Malformed`. -/
theorem read_ptp_u8_malformed : ∀ (b : Bytes) e, read_ptp_u8 b = .error e → e.isMalformed := by
  intro b e h
  cases b <;> simp [read_ptp_u8] at h
  rw [← h]; trivial

/-- Helper: `read_ptp_u16` fails only with `Malformed`. -/
theorem read_ptp_u16_malformed : ∀ (b : Bytes) e, read_ptp_u16 b = .error e → e.isMalformed := by
  intro b e h
  rcases b with _ | ⟨b0, _ | ⟨b1, r⟩⟩ <;> simp [read_ptp_u16] at h <;>
    (rw [← h]; trivial)

/-- Helper: `read_ptp_u32` fails only with `Malformed`. -/
theorem read_ptp_u32_malformed : ∀ (b : Bytes) e, read_ptp_u32 b = .error e → e.isMalformed := by
  intro b e h
  rcases b with _ | ⟨b0, _ | ⟨b1, _ | ⟨b2, _ | ⟨b3, r⟩⟩⟩⟩ <;> simp [read_ptp_u32] at h <;>
    (rw [← h]; trivial)

/-- Helper: `readN` with an element reader failing only with `Malformed`
fails only with `Malformed`. -/
theorem readN_malformed {α : Type} (reader : Bytes → Except Error (α × Bytes))
    (hr : ∀ b e, reader b = .error e → e.isMalformed) :
    ∀ (n : Nat) (b : Bytes) e, readN reader n b = .error e → e.isMalformed := by
  intro n
  induction n with
  | zero => intro b e h; simp [readN] at h
  | succ m ih =>
    intro b e h
    rw [readN] at h
    split at h
    · rename_i e2 heq
      injection h with h2
      exact h2 ▸ hr b e2 heq
    · rename_i x r heq
      split at h
      · rename_i e3 hy
        injection h with h2
        exact h2 ▸ ih r e3 hy
      · exact Except.noConfusion h

/-- Helper: `read_ptp_str` fails only with `Malformed` (truncation or
invalid UTF-16). -/
theorem read_ptp_str_malformed : ∀ (b : Bytes) e, read_ptp_str b = .error e → e.isMalformed := by
  intro b e h
  rw [read_ptp_str] at h
  split at h
  · rename_i e2 heq
    injection h with h2
    exact h2 ▸ read_ptp_u8_malformed b e2 heq
  · rename_i len r heq
    split at h
    · split at h
      · rename_i e3 hN
        injection h with h2
        exact h2 ▸ readN_malformed read_ptp_u16 read_ptp_u16_malformed _ _ e3 hN
      · rename_i data r2 hN
        split at h
        · rename_i e4 h16
          injection h with h2
          exact h2 ▸ read_ptp_u16_malformed _ e4 h16
        · split at h
          · exact Except.noConfusion h
          · injection h with h2
            rw [← h2]; trivial
    · exact Except.noConfusion h

/-- C8 (amended): `PtpObjectInfo::decode` performs no code classification:
it reads `ObjectFormat` and `AssociationType` with plain u16 reads, and the
`Error` type of this module has no `BadObjectFormat` or `BadAssociationCode`
variants; every decode failure is `Malformed` (truncation or invalid UTF-16
in one of the string fields). -/
theorem objectinfo_decode_errors_malformed (buf : Bytes) (e : Error)
    (h : PtpObjectInfo.decode buf = .error e) : e.isMalformed := by
  revert e h
  rw [PtpObjectInfo.decode]
  refine bind_errors_malformed (read_ptp_u32_malformed buf) ?_
  rintro ⟨sid, r0⟩
  refine bind_errors_malformed (read_ptp_u16_malformed r0) ?_
  rintro ⟨v1, r1⟩
  refine bind_errors_malformed (read_ptp_u16_malformed r1) ?_
  rintro ⟨v2, r2⟩
  refine bind_errors_malformed (read_ptp_u32_malformed r2) ?_
  rintro ⟨v3, r3⟩
  refine bind_errors_malformed (read_ptp_u16_malformed r3) ?_
  rintro ⟨v4, r4⟩
  refine bind_errors_malformed (read_ptp_u32_malformed r4) ?_
  rintro ⟨v5, r5⟩
  refine bind_errors_malformed (read_ptp_u32_malformed r5) ?_
  rintro ⟨v6, r6⟩
  refine bind_errors_malformed (read_ptp_u32_malformed r6) ?_
  rintro ⟨v7, r7⟩
  refine bind_errors_malformed (read_ptp_u32_malformed r7) ?_
  rintro ⟨v8, r8⟩
  refine bind_errors_malformed (read_ptp_u32_malformed r8) ?_
  rintro ⟨v9, r9⟩
  refine bind_errors_malformed (read_ptp_u32_malformed r9) ?_
  rintro ⟨v10, r10⟩
  refine bind_errors_malformed (read_ptp_u32_malformed r10) ?_
  rintro ⟨v11, r11⟩
  refine bind_errors_malformed (read_ptp_u16_malformed r11) ?_
  rintro ⟨v12, r12⟩
  refine bind_errors_malformed (read_ptp_u32_malformed r12) ?_
  rintro ⟨v13, r13⟩
  refine bind_errors_malformed (read_ptp_u32_malformed r13) ?_
  rintro ⟨v14, r14⟩
  refine bind_errors_malformed (read_ptp_str_malformed r14) ?_
  rintro ⟨s1, r15⟩
  refine bind_errors_malformed (read_ptp_str_malformed r15) ?_
  rintro ⟨s2, r16⟩
  refine bind_errors_malformed (read_ptp_str_malformed r16) ?_
  rintro ⟨s3, r17⟩
  refine bind_errors_malformed (read_ptp_str_malformed r17) ?_
  rintro ⟨s4, r18⟩
  intro e h
  simp at h

/-- Witness for `objectinfo_decode_errors_malformed`: decoding the empty
buffer fails with the `Malformed` truncation error. -/
theorem objectinfo_decode_errors_malformed_witness :
    PtpObjectInfo.decode [] = .error (.Malformed "Unexpected end of message") ∧
    Error.isMalformed (.Malformed "Unexpected end of message") :=
  ⟨rfl, objectinfo_decode_errors_malformed [] _ rfl⟩

/-- C8 counterexample: a 56-byte `ObjectInfo` buffer whose `ObjectFormat`
field is `0x0001` — rejected by `ObjectFormatCode::from_u16` — decodes
successfully instead of failing with a typed classification error. -/
theorem objectinfo_decode_ignores_classification :
    PtpObjectInfo.decode
        [0, 0, 0, 0,
         1, 0,
         0, 0,
         0, 0, 0, 0,
         0, 0,
         0, 0, 0, 0,
         0, 0, 0, 0,
         0, 0, 0, 0,
         0, 0, 0, 0,
         0, 0, 0, 0,
         0, 0, 0, 0,
         0, 0, 0, 0,
         0, 0,
         0, 0, 0, 0,
         0, 0, 0, 0,
         0, 0, 0, 0] =
      .ok { StorageID := 0, ObjectFormat := 1, ProtectionStatus := 0,
            ObjectCompressedSize := 0, ThumbFormat := 0, ThumbCompressedSize := 0,
            ThumbPixWidth := 0, ThumbPixHeight := 0, ImagePixWidth := 0,
            ImagePixHeight := 0, ImageBitDepth := 0, ParentObject := 0,
            AssociationType := 0, AssociationDesc := 0, SequenceNumber := 0,
            Filename := [], CaptureDate := [], ModificationDate := [],
            Keywords := [] } ∧
    ObjectFormatCode.from_u16 1 = none := by
  refine ⟨rfl, by decide⟩

/-- Helper: `chunks_exact(4)` yields the `⌊len/4⌋` consecutive 4-byte
groups, discarding any 1-3 trailing bytes. -/
theorem chunksExact4_eq : ∀ (p : Bytes),
    chunksExact4 p = (List.range (p.length / 4)).map (fun k => (p.drop (4 * k)).take 4)
  | a :: b :: c :: d :: rest => by
    rw [chunksExact4, chunksExact4_eq rest]
    have hlen : (a :: b :: c :: d :: rest).length = rest.length + 4 := by simp
    rw [hlen]
    have hdiv : (rest.length + 4) / 4 = rest.length / 4 + 1 := by omega
    rw [hdiv, List.range_succ_eq_map, List.map_cons, List.map_map]
    congr 1
  | [] => rfl
  | [x] => by
    have h : ([x] : Bytes).length / 4 = 0 := by simp
    rw [h]; rfl
  | [x, y] => by
    have h : ([x, y] : Bytes).length / 4 = 0 := by simp
    rw [h]; rfl
  | [x, y, z] => by
    have h : ([x, y, z] : Bytes).length / 4 = 0 := by simp
    rw [h]; rfl

/-- C9: `Event::new(code, p)` fails (with `BadEventCode`) exactly when
`EventCode::from_u16` rejects `code` — regardless of the payload length —
and on success yields the classified code together with exactly
`⌊len(p)/4⌋` parameters, the `k`-th being the big-endian u32 read from
bytes `4k..4k+4` of `p`; any 1-3 trailing bytes are silently discarded. -/
theorem event_new_params (code : Nat) (p : Bytes) :
    (Event.new code p = .error .BadEventCode ↔ EventCode.from_u16 code = none) ∧
    ∀ ev, Event.new code p = .ok ev →
      EventCode.from_u16 code = some ev.code ∧
      ev.params = (List.range (p.length / 4)).map
        (fun k => beU32 ((p.drop (4 * k)).take 4)) := by
  constructor
  · cases hc : EventCode.from_u16 code with
    | none => simp [Event.new, hc]
    | some c => simp [Event.new, hc]
  · intro ev h
    cases hc : EventCode.from_u16 code with
    | none => rw [Event.new, hc] at h; exact Except.noConfusion h
    | some c =>
      rw [Event.new, hc] at h
      injection h with h2
      subst h2
      refine ⟨rfl, ?_⟩
      show (chunksExact4 p).map beU32 = _
      rw [chunksExact4_eq, List.map_map]
      rfl

/-- Witness for `event_new_params`: the standard `ObjectAdded` code
`0x4002` with a 5-byte payload parses to one big-endian parameter
`0x01020304`, the fifth byte being discarded. -/
theorem event_new_params_witness :
    Event.new 0x4002 [1, 2, 3, 4, 5] = .ok ⟨.Standard 0x4002, [0x01020304]⟩ ∧
    EventCode.from_u16 0x4002 = some (.Standard 0x4002) ∧
    ([0x01020304] : List Nat) = (List.range ([1, 2, 3, 4, 5].length / 4)).map
      (fun k => beU32 (([1, 2, 3, 4, 5].drop (4 * k)).take 4)) := by
  have h := (event_new_params 0x4002 [1, 2, 3, 4, 5]).2
    ⟨.Standard 0x4002, [0x01020304]⟩ (by rfl)
  exact ⟨rfl, h.1, h.2⟩

/-- Helper: a character always encodes to at least one UTF-16 code unit. -/
theorem charUtf16_ne_nil (c : Char) : charUtf16 c ≠ [] := by
  rw [charUtf16]; split <;> simp

/-- Helper: the UTF-16 encoding is empty exactly for the empty string. -/
theorem encodeUtf16_nil_iff (s : List Char) : encodeUtf16 s = [] ↔ s = [] := by
  cases s with
  | nil => simp [encodeUtf16]
  | cons c t => simp [encodeUtf16, charUtf16_ne_nil c]

/-- Helper: a character occupies at least one UTF-8 byte. -/
theorem charUtf8Size_pos (c : Char) : 0 < charUtf8Size c := by
  rw [charUtf8Size]
  split
  · norm_num
  · split
    · norm_num
    · split <;> norm_num

/-- Helper: the UTF-8 byte count is positive exactly for non-empty
strings. -/
theorem strUtf8Len_pos_iff (s : List Char) : 0 < strUtf8Len s ↔ s ≠ [] := by
  cases s with
  | nil => simp [strUtf8Len]
  | cons c t =>
    simp only [strUtf8Len, List.map_cons, List.sum_cons]
    constructor
    · intro _ h; exact List.noConfusion h
    · intro _; exact Nat.lt_of_lt_of_le (charUtf8Size_pos c) (Nat.le_add_right _ _)

/-- C10 (amended): the two string encoders — `Data::encode` on `STR`
(length byte from the UTF-8 **byte** count) and `write_ptp_str` (length
byte from the UTF-16 **code-unit** count) — produce identical bytes exactly
on the strings where the two counts agree modulo 128, and differ on every
other string; in particular they agree on every ASCII string.  When the two
counts are congruent the byte sequences coincide outright (the bytes after
the length byte are always identical); when they are not, the two wrapping
length bytes already differ. -/
theorem data_encode_str_eq_write_ptp_str (s : List Char) :
    Data.encode (.STR s) = write_ptp_str s ↔
      strUtf8Len s % 128 = (encodeUtf16 s).length % 128 := by
  constructor
  · intro heq
    rw [Data.encode, write_ptp_str] at heq
    injection heq with h1 h2
    omega
  · intro h
    rw [Data.encode, write_ptp_str]
    by_cases hs : s = []
    · subst hs
      rfl
    · have hpos : 0 < strUtf8Len s := (strUtf8Len_pos_iff s).mpr hs
      have hne : encodeUtf16 s ≠ [] := fun hh => hs ((encodeUtf16_nil_iff s).mp hh)
      have hemp : (encodeUtf16 s).isEmpty = false := by
        simpa [List.isEmpty_iff] using hne
      rw [if_pos hpos, hemp, if_neg Bool.false_ne_true]
      congr 1
      omega

/-- Witness for `data_encode_str_eq_write_ptp_str`, exercising both
directions of the biconditional at concrete inputs: the ASCII string `"A"`
(UTF-8 count 1 ≡ UTF-16 count 1) is encoded identically by both encoders,
and the string `"é"` (UTF-8 count 2 ≢ UTF-16 count 1 mod 128) is not. -/
theorem data_encode_str_eq_write_ptp_str_witness :
    Data.encode (.STR ['A']) = write_ptp_str ['A'] ∧
    ¬ Data.encode (.STR ['é']) = write_ptp_str ['é'] :=
  ⟨(data_encode_str_eq_write_ptp_str ['A']).mpr (by rfl),
   fun h => absurd ((data_encode_str_eq_write_ptp_str ['é']).mp h) (by decide)⟩

/-- C10 counterexample: on the one-character string `"é"` (2 UTF-8 bytes,
1 UTF-16 unit) the two encoders disagree: `Data::encode` writes length byte
`5`, `write_ptp_str` writes `3`. -/
theorem string_encoders_disagree :
    Data.encode (.STR ['é']) = [5, 0xE9, 0, 0, 0] ∧
    write_ptp_str ['é'] = [3, 0xE9, 0, 0, 0] ∧
    Data.encode (.STR ['é']) ≠ write_ptp_str ['é'] := by
  refine ⟨rfl, rfl, by decide⟩

end Ptp
